import Mathlib

/-!
Verification of `softlayer_saltmaster_bootstrap` (src/python/softlayer_saltmaster_bootstrap/__main__.py).

Shallow embedding conventions:
- Wall-clock observations are abstracted: `limitAt n` is the boolean value of the
  check `(datetime.now() - start).total_seconds() / 60 > lim_min` made at the start
  of the n-th loop iteration (0-based).
- The repeated operation is abstracted as `results n`, the value returned by the
  n-th invocation of `fn` (0-based).
- A Python function that may raise is embedded as returning `Except`.
- The unbounded `while` loop is embedded with explicit fuel; `none` means the fuel
  ran out (the Python loop would still be running).
- `time.sleep(3)` and each call of `fn` are recorded as events in a trace.
-/

/-- Observable events during one run of the retry loop of `until_with_lim_test`:
`call n` is the n-th invocation of `fn` (1-based, matching the `retries` counter),
`sleep` is an execution of `time.sleep(3)`. -/
inductive REvent where
  | call : Nat → REvent
  | sleep : REvent
  deriving DecidableEq, Repr

/-- Outcome of `until_with_lim_test`: `success` (the function returns `res`),
`timeExceeded` (`TimeLimitedOperationException` is raised), `predicateNeverSatisfied`
(the generic `Exception('failed operation-provided test')` is raised), or `raised e`
(an exception propagated out of the operation-provided `test_fn`). -/
inductive RetryOutcome (ε α : Type) where
  | success : α → RetryOutcome ε α
  | timeExceeded : RetryOutcome ε α
  | predicateNeverSatisfied : RetryOutcome ε α
  | raised : ε → RetryOutcome ε α
  deriving DecidableEq, Repr

/-- Result of a terminating run of `until_with_lim_test`: the outcome, the final
value of the `retries` counter, and the event trace. -/
structure RetryResult (ε α : Type) where
  outcome : RetryOutcome ε α
  retries : Nat
  trace : List REvent
  deriving DecidableEq, Repr

/-- The mutable state of the `while` loop in `until_with_lim_test`
(lines 53-71 of `__main__.py`): `test`, `limit_reached`, `retries`, the last `res`
(`none` before the first iteration), plus the recorded event trace. -/
structure LoopState (α : Type) where
  test : Bool
  limit_reached : Bool
  retries : Nat
  res : Option α
  trace : List REvent
  deriving Repr

/-- The `while not (test or limit_reached)` loop of `until_with_lim_test`
(lines 58-71).  Each iteration: read the clock (`limitAt s.retries`), invoke `fn`
(`results s.retries`), increment `retries`, evaluate `test_fn` when provided
(its exception propagates, ending the run with `Except.error`) or otherwise break
on a truthy result, and `time.sleep(3)` when `retries > 2`.  Fuel bounds the
number of unfoldings; `none` means the loop has not yet exited. -/
def loopGo {α ε : Type} (tf : Option (α → Except ε Bool)) (truthy : α → Bool)
    (limitAt : Nat → Bool) (results : Nat → α) :
    Nat → LoopState α → Option (Except (ε × Nat × List REvent) (LoopState α))
  | 0, _ => none
  | fuel + 1, s =>
    if s.test || s.limit_reached then
      some (Except.ok s)
    else
      let lr := limitAt s.retries
      let r := results s.retries
      let retries := s.retries + 1
      let tr := s.trace ++ [REvent.call retries]
      match tf with
      | some f =>
        match f r with
        | Except.error e => some (Except.error (e, retries, tr))
        | Except.ok t =>
          loopGo tf truthy limitAt results fuel
            ⟨t, lr, retries, some r,
              tr ++ (if retries > 2 then [REvent.sleep] else [])⟩
      | none =>
        if truthy r then
          -- `test = True; break` skips the sleep at the bottom of the loop body
          some (Except.ok ⟨true, lr, retries, some r, tr⟩)
        else
          loopGo tf truthy limitAt results fuel
            ⟨s.test, lr, retries, some r,
              tr ++ (if retries > 2 then [REvent.sleep] else [])⟩

/-- `until_with_lim_test` (lines 52-80): run the loop from the initial state
(`test = False`, `limit_reached = False`, `retries = 0`), then
raise `TimeLimitedOperationException` if `limit_reached`, else raise the generic
failure if `not test`, else return `res`.  `truthy` embeds Python truthiness of
the operation result, used only when no `test_fn` is provided. -/
def until_with_lim_test {α ε : Type} [Inhabited α] (tf : Option (α → Except ε Bool))
    (truthy : α → Bool) (limitAt : Nat → Bool) (results : Nat → α) (fuel : Nat) :
    Option (RetryResult ε α) :=
  match loopGo tf truthy limitAt results fuel ⟨false, false, 0, none, []⟩ with
  | none => none
  | some (Except.error (e, n, tr)) => some ⟨RetryOutcome.raised e, n, tr⟩
  | some (Except.ok s) =>
    if s.limit_reached then
      some ⟨RetryOutcome.timeExceeded, s.retries, s.trace⟩
    else if !s.test then
      some ⟨RetryOutcome.predicateNeverSatisfied, s.retries, s.trace⟩
    else
      some ⟨RetryOutcome.success (s.res.getD default), s.retries, s.trace⟩

/-- `until_with_lim = partial(until_with_lim_test, None)` (line 82). -/
def until_with_lim {α ε : Type} [Inhabited α] (truthy : α → Bool)
    (limitAt : Nat → Bool) (results : Nat → α) (fuel : Nat) :
    Option (RetryResult ε α) :=
  until_with_lim_test none truthy limitAt results fuel

/-- The events contributed by the loop iteration whose (1-based) call counter is
`retries`: the call, followed by a sleep when `retries > 2`. -/
def stepEvents (retries : Nat) : List REvent :=
  REvent.call retries :: (if retries > 2 then [REvent.sleep] else [])

/-- The trace produced by `n` consecutive loop iterations starting at 0-based
iteration index `i` (so with call counters `i+1, ..., i+n`). -/
def segTrace (i : Nat) : Nat → List REvent
  | 0 => []
  | d + 1 => stepEvents (i + 1) ++ segTrace (i + 1) d

/-- Decides whether a `sleep` event occurs strictly before the `k`-th call event
in a trace. -/
def sleepBeforeCall (k : Nat) (tr : List REvent) : Bool :=
  (tr.takeWhile (fun e => e != REvent.call k)).contains REvent.sleep

/-- One entry of `operatingSystem.passwords` in a virtual-guest record. -/
structure Password where
  username : String
  password : String
  deriving DecidableEq, Repr

/-- A virtual-guest record as returned by
`client['Account'].getVirtualGuests(mask='mask[id,fullyQualifiedDomainName,hostname,domain,primaryIpAddress,operatingSystem.passwords]')`.
A missing or empty `operatingSystem.passwords` value (both falsy in Python) is
embedded as the empty list. -/
structure VsRecord where
  id : Nat
  fullyQualifiedDomainName : String
  hostname : String
  domain : String
  primaryIpAddress : String
  passwords : List Password
  deriving DecidableEq, Repr

/-- Python truthiness of a returned record dict: a dict carrying the masked
fields is non-empty, hence truthy. -/
def VsRecord.isTruthy (_ : VsRecord) : Bool := true

/-- The Instance Descriptor: the tuple
`(fullyQualifiedDomainName, primaryIpAddress, root_pass(provisioned), id)`
returned by `_locate_instance` (line 128).  The third component is the return of
`root_pass`, which can be `None`. -/
structure InstTuple where
  fqdn : String
  ip : String
  rootPass : Option String
  id : Nat
  deriving DecidableEq, Repr

/-- The exceptions `_locate_instance` can raise, as typed values:
`timeLimit` is `TimeLimitedOperationException` from the retry engine,
`predFail` the generic engine failure, `multipleRoot` the
`Multiple "root" passwords` exception (line 116), `noOsVal` the
`failed to locate vs named ... with operatingSystem val` exception (line 130),
`indexErr` an IndexError from indexing `[0]` into an empty list, and
`ambiguous` the `Ambiguous results from SL` exception (line 132), carrying the
full match list that Python formats into the message. -/
inductive LocErr where
  | timeLimit : LocErr
  | predFail : LocErr
  | multipleRoot : String → LocErr
  | noOsVal : String → LocErr
  | indexErr : LocErr
  | ambiguous : List VsRecord → LocErr
  deriving DecidableEq, Repr

/-- The exception message text (approximate; used only to build printed lines). -/
def LocErr.msg : LocErr → String
  | LocErr.timeLimit => "reached time limit 5m and did not succeed"
  | LocErr.predFail => "failed operation-provided test"
  | LocErr.multipleRoot n => "Multiple root passwords found for box " ++ n ++ ", bailing"
  | LocErr.noOsVal n => "failed to locate vs named " ++ n ++ " with operatingSystem val"
  | LocErr.indexErr => "list index out of range"
  | LocErr.ambiguous _ => "Ambiguous results from SL when searching for given hostname"

/-- `root_pass` (lines 105-117) applied to a single record (the final call at
line 128): if the passwords list is truthy, filter to `username == 'root'`;
exactly one entry returns its password, more than one raises, zero (or falsy
metadata) returns `None`. -/
def root_pass_rec (name : String) (v : VsRecord) : Except LocErr (Option String) :=
  if !v.passwords.isEmpty then
    match v.passwords.filter (fun i => i.username == "root") with
    | [p] => Except.ok (some p.password)
    | _ :: _ :: _ => Except.error (LocErr.multipleRoot name)
    | [] => Except.ok none
  else
    Except.ok none

/-- `root_pass` applied to a list (the retry test at line 125): a non-empty list
is replaced by its head (`my_vs = vs[0]`), an empty list is falsy and yields
`None`. -/
def root_pass_list (name : String) (vs : List VsRecord) : Except LocErr (Option String) :=
  match vs with
  | [] => Except.ok none
  | v :: _ => root_pass_rec name v

/-- Python truthiness of the value `root_pass` returns: `None` is falsy, a
string is truthy when non-empty. -/
def optTruthy : Option String → Bool
  | none => false
  | some s => !s.isEmpty

/-- The retry test used by `_locate_instance`: the stored loop variable
`test = root_pass(res)` as a boolean (its truthiness), with the exception from
`root_pass` propagating. -/
def rootPassTest (name : String) (vs : List VsRecord) : Except LocErr Bool :=
  match root_pass_list name vs with
  | Except.error e => Except.error e
  | Except.ok op => Except.ok (optTruthy op)

/-- The filter of `vs_lookup` (line 103): keep records whose `hostname` and
`domain` exactly equal the requested ones (records returned by the API are
truthy dicts). -/
def vs_lookup (name domain : String) (li : List VsRecord) : List VsRecord :=
  li.filter (fun i => i.hostname == name && i.domain == domain)

/-- `_locate_instance` (lines 94-132).  `account n` is the listing returned by
the n-th `getVirtualGuests` call of this run (call 0 is the initial lookup, the
retry loop re-queries with calls 1, 2, ...).  Returns `some (Except.ok none)`
for "not found", `some (Except.ok (some t))` with the Instance Descriptor tuple,
`some (Except.error e)` when an exception is raised, and `none` when the retry
loop is still running after `fuel` unfoldings. -/
def locate_instance (name domain : String) (account : Nat → List VsRecord)
    (limitAt : Nat → Bool) (fuel : Nat) :
    Option (Except LocErr (Option InstTuple)) :=
  let matching := vs_lookup name domain (account 0)
  if matching.isEmpty then
    some (Except.ok none)
  else if matching.length == 1 then
    match until_with_lim_test (some (rootPassTest name)) (fun vs => !vs.isEmpty)
        limitAt (fun n => vs_lookup name domain (account (n + 1))) fuel with
    | none => none
    | some res =>
      match res.outcome with
      | RetryOutcome.raised e => some (Except.error e)
      | RetryOutcome.timeExceeded => some (Except.error LocErr.timeLimit)
      | RetryOutcome.predicateNeverSatisfied => some (Except.error LocErr.predFail)
      | RetryOutcome.success vs =>
        match vs with
        | [] => some (Except.error LocErr.indexErr)
        | provisioned :: _ =>
          if provisioned.isTruthy then
            match root_pass_rec name provisioned with
            | Except.error e => some (Except.error e)
            | Except.ok rp =>
              some (Except.ok (some ⟨provisioned.fullyQualifiedDomainName,
                provisioned.primaryIpAddress, rp, provisioned.id⟩))
          else
            some (Except.error (LocErr.noOsVal name))
  else
    some (Except.error (LocErr.ambiguous matching))

/-- A concrete record whose credential metadata is populated (one entry) but
holds zero credentials for the root account name. -/
def vNoRoot : VsRecord :=
  ⟨9, "db1.example.com", "db1", "example.com", "5.6.7.8", [⟨"admin", "pw"⟩]⟩

/-- A provider-side SSH key record as returned by
`SshKeyManager.list_keys()`: the fields `_locate_or_add_pubkey` consults. -/
structure SLKey where
  label : String
  id : Nat
  deriving DecidableEq, Repr

/-- The ways `_locate_or_add_pubkey` (lines 147-174) can end:
`ok` returns a key record; `indexError` is the IndexError raised by
`key_by_label` when `[key for key in ... if key['label'] == label]` is empty and
`[0]` is taken; `duplicateLabel` is the `already exists in SL` exception
(line 164); `keyNotFound` is the `was not found in SL configured keys`
exception (line 174) — unreachable, because `key_by_label` either raises
IndexError or returns a truthy dict. -/
inductive KeyOutcome where
  | ok : SLKey → KeyOutcome
  | indexError : KeyOutcome
  | duplicateLabel : String → KeyOutcome
  | keyNotFound : String → KeyOutcome
  deriving DecidableEq, Repr

/-- Python `str.split()` with no argument: split on runs of whitespace and drop
empty tokens.  Written over the character list so it evaluates in the kernel. -/
def splitWsAux : List Char → List Char → List String
  | [], acc => if acc.isEmpty then [] else [String.mk acc.reverse]
  | c :: cs, acc =>
    if c.isWhitespace then
      if acc.isEmpty then splitWsAux cs [] else String.mk acc.reverse :: splitWsAux cs []
    else splitWsAux cs (c :: acc)

/-- Python `key.split()`. -/
def pySplitWs (s : String) : List String := splitWsAux s.data []

/-- `key_label = ''.join(key.split()[-1:])` (line 159): the last whitespace
token of the key file content, or the empty string when there is none. -/
def derive_key_label (key : String) : String :=
  (pySplitWs key).getLastD ""

/-- The filter inside `key_by_label` (line 153); Python then indexes `[0]`,
which raises IndexError when this list is empty. -/
def key_by_label (keys : List SLKey) (key_label : String) : List SLKey :=
  keys.filter (fun k => k.label == key_label)

/-- `os.path.exists` plus `open(...).read()` over an abstract filesystem given
as a path-to-content association list. -/
def lookupFile (fs : List (String × String)) (path : String) : Option String :=
  (fs.find? (fun p => p.1 == path)).map (fun p => p.2)

/-- `_locate_or_add_pubkey` (lines 147-174) over an abstract filesystem `fs` and
the account key list `keys`.  The second component counts `add_key` registration
calls issued.  When the argument is an existing file, the code first evaluates
`sl_key = key_by_label(key_label)` (line 162): an empty filter list raises
IndexError there, so the `add_key` branch (line 166) is unreachable — reaching
the `if` at line 163 requires a key record, which is a truthy dict, forcing the
duplicate-label exception instead. -/
def locate_or_add_pubkey (fs : List (String × String)) (keys : List SLKey)
    (path_or_label : String) : KeyOutcome × Nat :=
  match lookupFile fs path_or_label with
  | some content =>
    let key_label := derive_key_label content
    match key_by_label keys key_label with
    | [] => (KeyOutcome.indexError, 0)
    | _ :: _ => (KeyOutcome.duplicateLabel key_label, 0)
  | none =>
    match key_by_label keys path_or_label with
    | [] => (KeyOutcome.indexError, 0)
    | k :: _ => (KeyOutcome.ok k, 0)

/-- Parsed CLI arguments (the `argparse` surface, lines 278-287). -/
structure Args where
  saltmaster_vm_name : String
  saltmaster_vm_domain : String
  show_root_pass : Bool
  ssh_pub_key : Option String
  seed_dir : Option String
  add_sl_cli : Bool
  deriving DecidableEq, Repr

/-- Python truthiness of an optional string argument: `None` and the empty
string are falsy. -/
def optStrTruthy : Option String → Bool
  | none => false
  | some s => !s.isEmpty

/-- Python `str` of the third tuple slot (the return of `root_pass`, possibly
`None`). -/
def pyStrOpt : Option String → String
  | none => "None"
  | some s => s

/-- `_report_instance` (lines 134-140): `<fqdn> <primaryIpAddress>
<root_password> <instance_id>`, with slot 2 replaced by `XXXXX` unless
`show_root_pass`. -/
def report_instance (inst : InstTuple) (show_root_pass : Bool) : String :=
  inst.fqdn ++ " " ++ inst.ip ++ " " ++
    (if show_root_pass then pyStrOpt inst.rootPass else "XXXXX") ++ " " ++
    toString inst.id

/-- Provider-side side-effecting calls issued by `main`:
`createInstance` is `_client['Virtual_Guest'].createObject(my_vm)` (line 261),
`cancelInstance id` is `VSManager(_client).cancel_instance(instance[-1])`
issued by `_hose_instance` (line 145) — the argument `instance[-1]` is the last
slot of the Instance Descriptor tuple, its provider-assigned numeric id. -/
inductive Call where
  | createInstance : Call
  | cancelInstance : Nat → Call
  deriving DecidableEq, Repr

/-- How the process ends: `exited n` is `sys.exit(n)`; the `crashed…` cases are
unhandled exceptions (the interpreter then exits with status 1):
`crashedLocate` from the unguarded first `my_locate()` (line 243),
`crashedNameError` the NameError at line 256 when `ssh_key` was never bound,
`crashedReport` the TypeError in `_report_instance` when `vs` is `None`
(line 274), and `crashedCancel` an exception from the cancel call inside the
`except` handler. -/
inductive MainOutcome where
  | exited : Nat → MainOutcome
  | crashedLocate : LocErr → MainOutcome
  | crashedNameError : MainOutcome
  | crashedReport : MainOutcome
  | crashedCancel : String → MainOutcome
  deriving DecidableEq, Repr

/-- The process exit status: the argument of `sys.exit`, or 1 for an unhandled
exception. -/
def MainOutcome.exitStatus : MainOutcome → Nat
  | MainOutcome.exited n => n
  | _ => 1

/-- Result of a run of `main`: how the process ended, the provider calls
issued, and the lines printed to standard output. -/
structure MainRes where
  outcome : MainOutcome
  calls : List Call
  output : List String
  deriving DecidableEq, Repr

/-- The collaborator environment of one run of `main`: the two `my_locate()`
calls get their own lookup streams and clock observations; the network-dependent
outcomes of `createObject`, the three `_ssh_with_retry` configuration steps and
`cancel_instance` are supplied as `Except` values. -/
structure MainEnv where
  account1 : Nat → List VsRecord
  limitAt1 : Nat → Bool
  fuel1 : Nat
  fs : List (String × String)
  slKeys : List SLKey
  createResult : Except String Unit
  account2 : Nat → List VsRecord
  limitAt2 : Nat → Bool
  fuel2 : Nat
  sshSeedResult : Except String Unit
  sshInstallResult : Except String Unit
  sshCliResult : Except String Unit
  cancelResult : Except String Unit

/-- `_ssh_with_retry` (lines 176-193) at main level: with `vs = None` the
`ssh.connect(instance[1], ...)` attempt raises inside `ssh_connect`, which
returns `False`, so the bounded wait can never succeed and raises the
time-limit exception; with a real instance the step outcome (network-dependent)
is the supplied value. -/
def ssh_with_retry (vsOpt : Option InstTuple) (r : Except String Unit) :
    Except String Unit :=
  match vsOpt with
  | none => Except.error "reached time limit 5m and did not succeed"
  | some _ => r

/-- The code after the `try` block (lines 274-275): print the report and
`sys.exit(exit_code)` with `exit_code = 15` in the creation branch; with
`vs = None` the `list(instance)` call in `_report_instance` raises TypeError. -/
def finishTry (args : Args) (vsOpt : Option InstTuple) (calls : List Call)
    (out : List String) : MainRes :=
  match vsOpt with
  | none => ⟨MainOutcome.crashedReport, calls, out⟩
  | some inst =>
    ⟨MainOutcome.exited 15, calls, out ++ [report_instance inst args.show_root_pass]⟩

/-- The `except` handler of the creation branch (lines 269-272): print the
failure line, then `if vs: _hose_instance(vs)` — the cancel call is issued only
when an Instance Descriptor was obtained, and an exception from the cancel call
itself propagates unhandled. -/
def exceptHandler (args : Args) (env : MainEnv) (vsOpt : Option InstTuple)
    (calls : List Call) (out : List String) (exmsg : String) : MainRes :=
  let out := out ++ ["Failed to create and provision instance named: " ++
    args.saltmaster_vm_name ++ ". Hosing it. Original exception: " ++ exmsg]
  match vsOpt with
  | none => finishTry args none calls out
  | some inst =>
    let calls := calls ++ [Call.cancelInstance inst.id]
    match env.cancelResult with
    | Except.error m => ⟨MainOutcome.crashedCancel m, calls, out⟩
    | Except.ok _ => finishTry args (some inst) calls out

/-- `main` (lines 231-275).  The first `my_locate()` is unguarded: its
exceptions crash the process.  In the creation branch, `ssh_key` is bound only
when the truthy `--ssh_pub_key` argument resolves (any exception there exits
with code 1); building the VM template then reads `ssh_key` (NameError when
unbound).  The `try` block issues `createObject`, re-locates, and runs the
configuration steps; its `except` handler cancels only when `vs` is truthy.
Finally the report is printed and the process exits with `exit_code`
(0 found, 15 created). -/
def mainRun (args : Args) (env : MainEnv) : Option MainRes :=
  match locate_instance args.saltmaster_vm_name args.saltmaster_vm_domain
      env.account1 env.limitAt1 env.fuel1 with
  | none => none
  | some (Except.error e) => some ⟨MainOutcome.crashedLocate e, [], []⟩
  | some (Except.ok (some vs)) =>
    some ⟨MainOutcome.exited 0, [], [report_instance vs args.show_root_pass]⟩
  | some (Except.ok none) =>
    match (if optStrTruthy args.ssh_pub_key then
             match (locate_or_add_pubkey env.fs env.slKeys
                 ((args.ssh_pub_key).getD "")).fst with
             | KeyOutcome.ok k => Except.ok (some k)
             | _ => Except.error ()
           else Except.ok (none : Option SLKey)) with
    | Except.error _ => some ⟨MainOutcome.exited 1, [], []⟩
    | Except.ok none => some ⟨MainOutcome.crashedNameError, [], []⟩
    | Except.ok (some _) =>
      match env.createResult with
      | Except.error m => some (exceptHandler args env none [Call.createInstance] [] m)
      | Except.ok _ =>
        match locate_instance args.saltmaster_vm_name args.saltmaster_vm_domain
            env.account2 env.limitAt2 env.fuel2 with
        | none => none
        | some (Except.error e) =>
          some (exceptHandler args env none [Call.createInstance] [] e.msg)
        | some (Except.ok vsOpt) =>
          match (if optStrTruthy args.seed_dir then
                   ssh_with_retry vsOpt env.sshSeedResult
                 else Except.ok ()) with
          | Except.error m =>
            some (exceptHandler args env vsOpt [Call.createInstance] [] m)
          | Except.ok _ =>
            match ssh_with_retry vsOpt env.sshInstallResult with
            | Except.error m =>
              some (exceptHandler args env vsOpt [Call.createInstance] [] m)
            | Except.ok _ =>
              match (if args.add_sl_cli then
                       ssh_with_retry vsOpt env.sshCliResult
                     else Except.ok ()) with
              | Except.error m =>
                some (exceptHandler args env vsOpt [Call.createInstance] [] m)
              | Except.ok _ => some (finishTry args vsOpt [Call.createInstance] [])

/-- A concrete record with exactly one root credential. -/
def vRoot : VsRecord :=
  ⟨42, "db1.example.com", "db1", "example.com", "5.6.7.8", [⟨"root", "p@ss"⟩]⟩

/-- Concrete arguments of a creation run: key label `k1`, no seed dir, no CLI
install, redacted report. -/
def argsCreate : Args := ⟨"db1", "example.com", false, some "k1", none, false⟩

/-- Concrete arguments with the `--ssh_pub_key` argument absent. -/
def argsNoKey : Args := ⟨"db1", "example.com", false, none, none, false⟩

/-- Environment: no instance matches, account key `k1` exists, every
collaborator call succeeds. -/
def envNoMatch : MainEnv :=
  ⟨fun _ => [], fun _ => false, 2, [], [⟨"k1", 7⟩], Except.ok (),
   fun _ => [], fun _ => false, 2, Except.ok (), Except.ok (), Except.ok (),
   Except.ok ()⟩

/-- Environment: no match initially; after creation the re-locate polls a
single match with no root credential while the clock runs out from the second
poll on, so the second locate raises the time-limit exception. -/
def envRelocateTimeout : MainEnv :=
  ⟨fun _ => [], fun _ => false, 2, [], [⟨"k1", 7⟩], Except.ok (),
   fun _ => [vNoRoot], fun n => decide (1 ≤ n), 4, Except.ok (), Except.ok (),
   Except.ok (), Except.ok ()⟩

/-- Environment: no match initially; the re-locate succeeds with `vRoot`, but
the mandatory install configuration step fails; the cancel call succeeds. -/
def envConfigureFail : MainEnv :=
  ⟨fun _ => [], fun _ => false, 2, [], [⟨"k1", 7⟩], Except.ok (),
   fun _ => [vRoot], fun _ => false, 2, Except.ok (),
   Except.error "ssh step failed", Except.ok (), Except.ok ()⟩

/-- Environment: `vRoot` already exists (every poll returns it). -/
def envFound : MainEnv :=
  ⟨fun _ => [vRoot], fun _ => false, 2, [], [], Except.ok (),
   fun _ => [], fun _ => false, 2, Except.ok (), Except.ok (), Except.ok (),
   Except.ok ()⟩

/-- Environment: two records match the requested hostname and domain. -/
def envAmbiguous : MainEnv :=
  ⟨fun _ => [vRoot, vNoRoot], fun _ => false, 2, [], [], Except.ok (),
   fun _ => [], fun _ => false, 2, Except.ok (), Except.ok (), Except.ok (),
   Except.ok ()⟩

/-- Characterization of the loop (with a `test_fn` that does not raise on the
inspected prefix): starting a continuing state at iteration `i`, if the clock and
the test fail for `d` iterations and iteration `i + d` exits (the clock reads
over-limit there, or the test passes there), the loop stops at iteration `i + d`
with the corresponding state and trace. -/
theorem loopGo_some_spec {α ε : Type} (g : α → Except ε Bool) (truthy : α → Bool)
    (limitAt : Nat → Bool) (results : Nat → α) :
    ∀ (d i fuel : Nat) (r : Option α) (tr : List REvent) (bk : Bool),
      (∀ j, i ≤ j → j < i + d → limitAt j = false ∧ g (results j) = Except.ok false) →
      g (results (i + d)) = Except.ok bk →
      (limitAt (i + d) || bk) = true →
      d + 2 ≤ fuel →
      loopGo (some g) truthy limitAt results fuel ⟨false, false, i, r, tr⟩ =
        some (Except.ok ⟨bk, limitAt (i + d), i + d + 1, some (results (i + d)),
          tr ++ segTrace i (d + 1)⟩) := by
  intro d
  induction d with
  | zero =>
    intro i fuel r tr bk _ hk hexit hfuel
    obtain ⟨f, rfl⟩ : ∃ f, fuel = f + 2 := ⟨fuel - 2, by omega⟩
    show loopGo (some g) truthy limitAt results (f + 1 + 1) ⟨false, false, i, r, tr⟩ = _
    rw [loopGo]
    simp only [Nat.add_zero] at hk hexit
    simp only [Bool.or_self, Bool.false_or, if_false, hk]
    rw [loopGo]
    have hcond : (bk || limitAt i) = true := by
      cases bk <;> cases h : limitAt i <;> simp_all
    simp only [hcond, if_true]
    simp [segTrace, stepEvents, Nat.add_zero, List.append_assoc]
  | succ d ih =>
    intro i fuel r tr bk hprev hk hexit hfuel
    obtain ⟨f, rfl⟩ : ∃ f, fuel = f + 1 := ⟨fuel - 1, by omega⟩
    obtain ⟨hlim0, htest0⟩ := hprev i (Nat.le_refl i) (by omega)
    rw [loopGo]
    simp only [Bool.or_self, Bool.false_or, if_false, htest0, hlim0]
    have harith : i + (d + 1) = (i + 1) + d := by omega
    have hres := ih (i + 1) f (some (results i))
      (tr ++ [REvent.call (i + 1)] ++ (if i + 1 > 2 then [REvent.sleep] else []))
      bk
      (fun j hj1 hj2 => hprev j (by omega) (by omega))
      (by rw [← harith]; exact hk)
      (by rw [← harith]; exact hexit)
      (by omega)
    rw [hres]
    rw [← harith]
    simp [segTrace, stepEvents, List.append_assoc]

/-- Top-level characterization of `until_with_lim_test` with a non-raising test:
if the clock and the test fail for the first `k` iterations and iteration `k`
exits, then the run makes `k + 1` calls, yields the trace `segTrace 0 (k+1)`,
and the outcome is `timeExceeded` when the clock read over-limit at the start of
that final iteration (even if the test passed there), and otherwise `success`
with the final result. -/
theorem until_some_spec {α ε : Type} [Inhabited α] (g : α → Except ε Bool)
    (truthy : α → Bool) (limitAt : Nat → Bool) (results : Nat → α)
    (k fuel : Nat) (bk : Bool)
    (hprev : ∀ j, j < k → limitAt j = false ∧ g (results j) = Except.ok false)
    (hk : g (results k) = Except.ok bk)
    (hexit : (limitAt k || bk) = true)
    (hfuel : k + 2 ≤ fuel) :
    until_with_lim_test (some g) truthy limitAt results fuel =
      some ⟨(if limitAt k then RetryOutcome.timeExceeded
             else RetryOutcome.success (results k)),
            k + 1, segTrace 0 (k + 1)⟩ := by
  unfold until_with_lim_test
  rw [loopGo_some_spec g truthy limitAt results k 0 fuel none [] bk
    (fun j hj1 hj2 => hprev j (by omega))
    (by simpa using hk) (by simpa using hexit) hfuel]
  cases hL : limitAt k with
  | true => simp [hL]
  | false =>
    have hb : bk = true := by simpa [hL] using hexit
    subst hb
    simp [hL]

/-- Invariant of the loop: whenever it exits normally (without an exception from
`test_fn` and without running out of fuel), the exit condition
`test or limit_reached` holds in the final state. -/
theorem loopGo_ok_test_or_limit {α ε : Type} (tf : Option (α → Except ε Bool))
    (truthy : α → Bool) (limitAt : Nat → Bool) (results : Nat → α) :
    ∀ (fuel : Nat) (s s' : LoopState α),
      loopGo tf truthy limitAt results fuel s = some (Except.ok s') →
      (s'.test || s'.limit_reached) = true := by
  intro fuel
  induction fuel with
  | zero =>
    intro s s' h
    simp [loopGo] at h
  | succ f ih =>
    intro s s' h
    rw [loopGo] at h
    cases hc : (s.test || s.limit_reached) with
    | true =>
      simp only [hc, if_true, Option.some.injEq, Except.ok.injEq] at h
      subst h
      exact hc
    | false =>
      simp only [hc, if_false] at h
      cases tf with
      | some f' =>
        cases hfr : f' (results s.retries) with
        | error e => simp [hfr] at h
        | ok t =>
          simp only [hfr] at h
          exact ih _ _ h
      | none =>
        cases htr : truthy (results s.retries) with
        | true =>
          simp only [htr] at h
          simp at h
          subst h
          simp
        | false =>
          simp only [htr, if_false] at h
          exact ih _ _ h

/-- C9: the `PredicateNeverSatisfied` branch of the Bounded Retry Engine is
unreachable: whenever the retry loop of `until_with_lim_test` terminates, the
outcome is never the generic `failed operation-provided test` exception, because
exiting the loop with the limit not reached entails the test was satisfied. -/
theorem until_never_predicate_failure {α ε : Type} [Inhabited α]
    (tf : Option (α → Except ε Bool)) (truthy : α → Bool) (limitAt : Nat → Bool)
    (results : Nat → α) (fuel : Nat) (r : RetryResult ε α)
    (h : until_with_lim_test tf truthy limitAt results fuel = some r) :
    r.outcome ≠ RetryOutcome.predicateNeverSatisfied := by
  unfold until_with_lim_test at h
  cases hgo : loopGo tf truthy limitAt results fuel ⟨false, false, 0, none, []⟩ with
  | none => rw [hgo] at h; simp at h
  | some x =>
    rw [hgo] at h
    cases x with
    | error e =>
      obtain ⟨e1, e2, e3⟩ := e
      simp only [Option.some.injEq] at h
      subst h
      simp
    | ok s =>
      have hst := loopGo_ok_test_or_limit tf truthy limitAt results fuel _ _ hgo
      cases hlr : s.limit_reached with
      | true =>
        simp only [hlr, if_true, Option.some.injEq] at h
        subst h
        simp
      | false =>
        have ht : s.test = true := by
          cases hs : s.test
          · rw [hs, hlr] at hst; simp at hst
          · rfl
        simp only [hlr, ht] at h
        simp at h
        subst h
        simp

/-- Witness for C9 at a concrete run: one attempt whose result passes the test. -/
theorem until_never_predicate_failure_witness :
    (⟨RetryOutcome.success true, 1, [REvent.call 1]⟩ : RetryResult Unit Bool).outcome ≠
      RetryOutcome.predicateNeverSatisfied :=
  until_never_predicate_failure (some fun b => Except.ok b) (fun b => b)
    (fun _ => false) (fun _ => true) 2 _ rfl

/-- C3 counterexample: the clock reads over-limit at the start of the very first
attempt and that attempt's result satisfies the test (`test_fn` is the identity,
the operation returns `true`); the engine nevertheless raises `TimeExceeded`
instead of returning the satisfying result. -/
theorem until_timeout_despite_satisfying_test_cex :
    until_with_lim_test (some fun b => (Except.ok b : Except Unit Bool)) (fun b => b)
        (fun _ => true) (fun _ => true) 3 =
      some ⟨RetryOutcome.timeExceeded, 1, [REvent.call 1]⟩ := rfl

/-- C3 (amended): if the per-attempt clock check and the test both fail for the
first `k` attempts and attempt `k` exits the loop, the engine returns the
satisfying result exactly when the limit had not been observed exceeded at the
start of that final attempt; when the limit was observed exceeded at the start of
the final attempt, `TimeExceeded` is raised even if that attempt's own result
satisfies the test. -/
theorem retry_success_iff_limit_not_observed (α ε : Type) [Inhabited α]
    (g : α → Except ε Bool) (truthy : α → Bool) (limitAt : Nat → Bool)
    (results : Nat → α) (k fuel : Nat) (bk : Bool)
    (hprev : ∀ j, j < k → limitAt j = false ∧ g (results j) = Except.ok false)
    (hk : g (results k) = Except.ok bk)
    (hexit : (limitAt k || bk) = true)
    (hfuel : k + 2 ≤ fuel) :
    until_with_lim_test (some g) truthy limitAt results fuel =
      some ⟨(if limitAt k then RetryOutcome.timeExceeded
             else RetryOutcome.success (results k)), k + 1, segTrace 0 (k + 1)⟩ :=
  until_some_spec g truthy limitAt results k fuel bk hprev hk hexit hfuel

/-- Witness for C3 (amended): a first attempt that satisfies the test with the
limit not yet reached returns that result. -/
theorem retry_success_iff_limit_not_observed_witness :
    until_with_lim_test (some fun b => (Except.ok b : Except Unit Bool)) (fun b => b)
        (fun _ => false) (fun _ => true) 2 =
      some ⟨RetryOutcome.success true, 1, [REvent.call 1]⟩ := by
  have h := retry_success_iff_limit_not_observed Bool Unit (fun b => Except.ok b)
    (fun b => b) (fun _ => false) (fun _ => true) 0 2 true
    (fun j hj => absurd hj (by omega)) rfl rfl (by omega)
  simpa [segTrace, stepEvents] using h

/-- C4 counterexample: a run whose predicate is true on the 3rd call.  The engine
makes exactly 3 calls and returns the 3rd result, but the trace shows calls 1, 2
and 3 all back-to-back — no delay is inserted before the 3rd attempt (the first
and only delay of this run comes after the 3rd call). -/
theorem until_no_delay_before_third_call_cex :
    until_with_lim_test (some fun n => (Except.ok (n == 2) : Except Unit Bool))
        (fun _ => true) (fun _ => false) (fun n => n) 5 =
      some ⟨RetryOutcome.success 2, 3,
        [REvent.call 1, REvent.call 2, REvent.call 3, REvent.sleep]⟩ ∧
    sleepBeforeCall 3 [REvent.call 1, REvent.call 2, REvent.call 3, REvent.sleep] = false :=
  ⟨rfl, rfl⟩

/-- C4 (amended): the first three attempts run back-to-back and the fixed 3-unit
delay is executed after every attempt from the third onward, so the delay first
appears between the 3rd and 4th attempts.  With a predicate true on the 3rd call
the engine makes exactly 3 calls and returns that 3rd result (still executing a
trailing delay after that final call); with a predicate true on the 4th call the
delay separates the 3rd and 4th calls. -/
theorem retry_first_three_calls_back_to_back (α ε : Type) [Inhabited α] (truthy : α → Bool) :
    (∀ (g : α → Except ε Bool) (limitAt : Nat → Bool) (results : Nat → α) (fuel : Nat),
      g (results 0) = Except.ok false → g (results 1) = Except.ok false →
      g (results 2) = Except.ok true →
      limitAt 0 = false → limitAt 1 = false → limitAt 2 = false →
      4 ≤ fuel →
      until_with_lim_test (some g) truthy limitAt results fuel =
        some ⟨RetryOutcome.success (results 2), 3,
          [REvent.call 1, REvent.call 2, REvent.call 3, REvent.sleep]⟩) ∧
    (∀ (g : α → Except ε Bool) (limitAt : Nat → Bool) (results : Nat → α) (fuel : Nat),
      g (results 0) = Except.ok false → g (results 1) = Except.ok false →
      g (results 2) = Except.ok false → g (results 3) = Except.ok true →
      limitAt 0 = false → limitAt 1 = false → limitAt 2 = false → limitAt 3 = false →
      5 ≤ fuel →
      until_with_lim_test (some g) truthy limitAt results fuel =
        some ⟨RetryOutcome.success (results 3), 4,
          [REvent.call 1, REvent.call 2, REvent.call 3, REvent.sleep,
           REvent.call 4, REvent.sleep]⟩) := by
  constructor
  · intro g limitAt results fuel h0 h1 h2 hL0 hL1 hL2 hfuel
    have hprev : ∀ j, j < 2 → limitAt j = false ∧ g (results j) = Except.ok false := by
      intro j hj
      match j, hj with
      | 0, _ => exact ⟨hL0, h0⟩
      | 1, _ => exact ⟨hL1, h1⟩
    have h := until_some_spec g truthy limitAt results 2 fuel true hprev h2
      (by simp [hL2]) (by omega)
    simpa [segTrace, stepEvents, hL2] using h
  · intro g limitAt results fuel h0 h1 h2 h3 hL0 hL1 hL2 hL3 hfuel
    have hprev : ∀ j, j < 3 → limitAt j = false ∧ g (results j) = Except.ok false := by
      intro j hj
      match j, hj with
      | 0, _ => exact ⟨hL0, h0⟩
      | 1, _ => exact ⟨hL1, h1⟩
      | 2, _ => exact ⟨hL2, h2⟩
    have h := until_some_spec g truthy limitAt results 3 fuel true hprev h3
      (by simp [hL3]) (by omega)
    simpa [segTrace, stepEvents, hL3] using h

/-- Witness for C4 (amended): a concrete run with the predicate true on the 4th
call shows the delay between the 3rd and 4th calls. -/
theorem retry_first_three_calls_back_to_back_witness :
    until_with_lim_test (some fun n => (Except.ok (n == 3) : Except Unit Bool))
        (fun _ => true) (fun _ => false) (fun n => n) 6 =
      some ⟨RetryOutcome.success 3, 4,
        [REvent.call 1, REvent.call 2, REvent.call 3, REvent.sleep,
         REvent.call 4, REvent.sleep]⟩ :=
  (retry_first_three_calls_back_to_back Nat Unit (fun _ => true)).2
    (fun n => Except.ok (n == 3)) (fun _ => false) (fun n => n) 6
    rfl rfl rfl rfl rfl rfl rfl rfl (by omega)

/-- C5 counterexample: exactly one (hostname, domain) match whose credential
metadata is populated but contains zero root credentials.  The Locator fails
with the time-limit failure (`TimeLimitedOperationException`), not with a
distinct `ProvisioningIncomplete`-style failure: the per-poll test simply never
passes and the bounded wait runs out. -/
theorem locate_zero_root_is_time_limit_failure_cex :
    locate_instance "db1" "example.com" (fun _ => [vNoRoot])
        (fun n => decide (1 ≤ n)) 4 =
      some (Except.error LocErr.timeLimit) := rfl

/-- C5 (amended): whenever every lookup returns exactly the same single match
whose credential metadata is populated but contains zero root credentials, the
per-poll test never passes, and once the bounded clock reads over-limit the
Locator fails with the time-limit failure (`timeLimit`); the distinct
`noOsVal` failure of line 130 is not raised. -/
theorem locate_zero_root_credentials_times_out (name domain : String)
    (account : Nat → List VsRecord) (limitAt : Nat → Bool) (v : VsRecord)
    (k fuel : Nat)
    (hmatch : ∀ n, vs_lookup name domain (account n) = [v])
    (hpop : v.passwords ≠ [])
    (hnoroot : v.passwords.filter (fun i => i.username == "root") = [])
    (hfalse : ∀ j, j < k → limitAt j = false)
    (hk : limitAt k = true)
    (hfuel : k + 2 ≤ fuel) :
    locate_instance name domain account limitAt fuel =
      some (Except.error LocErr.timeLimit) := by
  have hg : rootPassTest name [v] = Except.ok false := by
    simp only [rootPassTest, root_pass_list, root_pass_rec, hnoroot]
    cases hc : (!v.passwords.isEmpty) <;> simp [hc, optTruthy]
  have hrun := until_some_spec (rootPassTest name) (fun vs => !vs.isEmpty) limitAt
    (fun n => vs_lookup name domain (account (n + 1))) k fuel false
    (fun j hj => ⟨hfalse j hj, by simp only [hmatch]; exact hg⟩)
    (by simp only [hmatch]; exact hg)
    (by simp [hk]) hfuel
  unfold locate_instance
  rw [hmatch 0]
  simp only [List.isEmpty_cons, List.length_cons, List.length_nil, Nat.reduceBEq,
    Bool.false_eq_true, if_false]
  rw [hrun]
  simp [hk]

/-- Witness for C5 (amended): the clock is over-limit from the start; the
Locator still polls once, the test fails, and the time-limit failure results. -/
theorem locate_zero_root_credentials_times_out_witness :
    locate_instance "db1" "example.com" (fun _ => [vNoRoot]) (fun _ => true) 2 =
      some (Except.error LocErr.timeLimit) :=
  locate_zero_root_credentials_times_out "db1" "example.com" (fun _ => [vNoRoot])
    (fun _ => true) vNoRoot 0 2 (fun _ => rfl) (by decide) rfl
    (fun j hj => absurd hj (by omega)) rfl (by omega)

/-- C1: a run of the Key Provisioner whose input resolves to an existing local
file whose derived label ("user@host", the trailing comment field) matches no
key registered on the account.  Contrary to the claim (and to the docstring at
line 148), the key is not registered: `key_by_label` raises IndexError at
line 162 before any `add_key` call (0 registration calls), so the Provisioner
fails instead of returning a handle. -/
theorem locate_or_add_pubkey_unmatched_label_raises :
    locate_or_add_pubkey [("/home/u/key.pub", "ssh-rsa AAAAB3NzaC1yc2E user@host")]
        [⟨"other-label", 3⟩] "/home/u/key.pub" =
      (KeyOutcome.indexError, 0) := rfl

/-- C10: when no instance matches and the `--ssh_pub_key` argument is absent,
`ssh_key` is never bound, so building the VM template raises NameError at
line 256 — before the `try` block: the run ends in an error with no provider
call (in particular no `createObject`) issued. -/
theorem main_no_key_fails_before_create (args : Args) (env : MainEnv)
    (hkey : args.ssh_pub_key = none)
    (habsent : vs_lookup args.saltmaster_vm_name args.saltmaster_vm_domain
      (env.account1 0) = []) :
    mainRun args env = some ⟨MainOutcome.crashedNameError, [], []⟩ := by
  simp [mainRun, locate_instance, habsent, hkey, optStrTruthy]

/-- Witness for C10 at concrete arguments and environment. -/
theorem main_no_key_fails_before_create_witness :
    mainRun argsNoKey envNoMatch = some ⟨MainOutcome.crashedNameError, [], []⟩ :=
  main_no_key_fails_before_create argsNoKey envNoMatch rfl rfl

/-- C6: with two or more exact (hostname, domain) matches, the first
`my_locate()` raises the ambiguous-results exception carrying the full match
list; the exception is unguarded in `main`, so the process exits non-zero with
no provider call (no create, no cancel) issued and no credential extraction
attempted. -/
theorem main_ambiguous_match_aborts (args : Args) (env : MainEnv)
    (h2 : 2 ≤ (vs_lookup args.saltmaster_vm_name args.saltmaster_vm_domain
      (env.account1 0)).length) :
    mainRun args env =
      some ⟨MainOutcome.crashedLocate (LocErr.ambiguous
        (vs_lookup args.saltmaster_vm_name args.saltmaster_vm_domain
          (env.account1 0))), [], []⟩ ∧
    MainOutcome.exitStatus (MainOutcome.crashedLocate (LocErr.ambiguous
      (vs_lookup args.saltmaster_vm_name args.saltmaster_vm_domain
        (env.account1 0)))) ≠ 0 := by
  have hne : (vs_lookup args.saltmaster_vm_name args.saltmaster_vm_domain
      (env.account1 0)).isEmpty = false := by
    cases hl : vs_lookup args.saltmaster_vm_name args.saltmaster_vm_domain
        (env.account1 0) with
    | nil => rw [hl] at h2; simp at h2
    | cons a l => simp
  have hlen : ((vs_lookup args.saltmaster_vm_name args.saltmaster_vm_domain
      (env.account1 0)).length == 1) = false := by
    simp only [beq_eq_false_iff_ne, ne_eq]
    omega
  constructor
  · simp [mainRun, locate_instance, hne, hlen]
  · simp [MainOutcome.exitStatus]

/-- Witness for C6 at a concrete two-match environment. -/
theorem main_ambiguous_match_aborts_witness :
    mainRun argsNoKey envAmbiguous =
      some ⟨MainOutcome.crashedLocate (LocErr.ambiguous [vRoot, vNoRoot]), [], []⟩ ∧
    MainOutcome.exitStatus (MainOutcome.crashedLocate
      (LocErr.ambiguous [vRoot, vNoRoot])) ≠ 0 := by
  have h := main_ambiguous_match_aborts argsNoKey envAmbiguous (by decide)
  simpa using h

/-- C7: when the Configuring phase fails after the Instance Descriptor was
obtained (whichever of the three `_ssh_with_retry` sub-steps fails first), the
`except` handler issues exactly one cancel call, targeting the last slot of the
descriptor tuple — its provider-assigned id — before the process ends. -/
theorem main_configure_failure_single_cancel (args : Args) (env : MainEnv)
    (a : String) (key : SLKey) (inst : InstTuple)
    (habsent : vs_lookup args.saltmaster_vm_name args.saltmaster_vm_domain
      (env.account1 0) = [])
    (harg : args.ssh_pub_key = some a) (hne : a ≠ "")
    (hkey : (locate_or_add_pubkey env.fs env.slKeys a).fst = KeyOutcome.ok key)
    (hcreate : env.createResult = Except.ok ())
    (hloc2 : locate_instance args.saltmaster_vm_name args.saltmaster_vm_domain
      env.account2 env.limitAt2 env.fuel2 = some (Except.ok (some inst)))
    (hfail : ¬ ((if optStrTruthy args.seed_dir then env.sshSeedResult
                 else Except.ok ()) = Except.ok () ∧
                env.sshInstallResult = Except.ok () ∧
                (if args.add_sl_cli then env.sshCliResult
                 else Except.ok ()) = Except.ok ())) :
    ∃ r, mainRun args env = some r ∧
      r.calls = [Call.createInstance, Call.cancelInstance inst.id] := by
  have hloc1 : locate_instance args.saltmaster_vm_name args.saltmaster_vm_domain
      env.account1 env.limitAt1 env.fuel1 = some (Except.ok none) := by
    simp [locate_instance, habsent]
  have hie : a.isEmpty = false := by
    cases hb : a.isEmpty
    · rfl
    · exact absurd ((String.isEmpty_iff a).mp hb) hne
  have htr : optStrTruthy args.ssh_pub_key = true := by
    rw [harg]
    simp [optStrTruthy, hie]
  have hget : args.ssh_pub_key.getD "" = a := by rw [harg]; rfl
  cases hseed : (if optStrTruthy args.seed_dir then env.sshSeedResult
      else Except.ok ()) with
  | error m =>
    have hmain : mainRun args env =
        some (exceptHandler args env (some inst) [Call.createInstance] [] m) := by
      simp [mainRun, hloc1, htr, hget, hkey, hcreate, hloc2, ssh_with_retry, hseed]
    refine ⟨_, hmain, ?_⟩
    cases hc : env.cancelResult <;> simp [exceptHandler, finishTry, hc]
  | ok u =>
    cases hinst : env.sshInstallResult with
    | error m =>
      have hmain : mainRun args env =
          some (exceptHandler args env (some inst) [Call.createInstance] [] m) := by
        simp [mainRun, hloc1, htr, hget, hkey, hcreate, hloc2, ssh_with_retry,
          hseed, hinst]
      refine ⟨_, hmain, ?_⟩
      cases hc : env.cancelResult <;> simp [exceptHandler, finishTry, hc]
    | ok u2 =>
      cases hcli : (if args.add_sl_cli then env.sshCliResult
          else Except.ok ()) with
      | error m =>
        have hmain : mainRun args env =
            some (exceptHandler args env (some inst) [Call.createInstance] [] m) := by
          simp [mainRun, hloc1, htr, hget, hkey, hcreate, hloc2, ssh_with_retry,
            hseed, hinst, hcli]
        refine ⟨_, hmain, ?_⟩
        cases hc : env.cancelResult <;> simp [exceptHandler, finishTry, hc]
      | ok u3 =>
        exact absurd ⟨hseed, hinst, hcli⟩ hfail

/-- Witness for C7: the install step fails after the descriptor for `vRoot` was
obtained; exactly the cancel for id 42 follows the create call. -/
theorem main_configure_failure_single_cancel_witness :
    ∃ r, mainRun argsCreate envConfigureFail = some r ∧
      r.calls = [Call.createInstance, Call.cancelInstance 42] := by
  have h := main_configure_failure_single_cancel argsCreate envConfigureFail
    "k1" ⟨"k1", 7⟩ ⟨"db1.example.com", "5.6.7.8", some "p@ss", 42⟩
    rfl rfl (by decide) rfl rfl rfl (by simp [envConfigureFail])
  simpa using h

/-- C8: when an instance with the requested hostname and domain already exists
with exactly one root credential, `main` takes the found path: the only output
line is the report `<fqdn> <ip> <credential-or-XXXXX> <id>` (the credential
shown only under `--show_root_pass`), the exit code is 0, and no provider call
is issued. -/
theorem main_existing_instance_reports (args : Args) (env : MainEnv)
    (v : VsRecord) (p : String)
    (h0 : vs_lookup args.saltmaster_vm_name args.saltmaster_vm_domain
      (env.account1 0) = [v])
    (h1 : vs_lookup args.saltmaster_vm_name args.saltmaster_vm_domain
      (env.account1 1) = [v])
    (hroot : v.passwords.filter (fun i => i.username == "root") = [⟨"root", p⟩])
    (hp : p ≠ "")
    (hlim : env.limitAt1 0 = false)
    (hfuel : 2 ≤ env.fuel1) :
    mainRun args env = some ⟨MainOutcome.exited 0, [],
      [v.fullyQualifiedDomainName ++ " " ++ v.primaryIpAddress ++ " " ++
        (if args.show_root_pass then p else "XXXXX") ++ " " ++ toString v.id]⟩ := by
  have hpwne : v.passwords ≠ [] := by
    intro h
    rw [h] at hroot
    simp at hroot
  have hpwe : v.passwords.isEmpty = false := by
    cases hb : v.passwords
    · exact absurd hb hpwne
    · simp
  have hrec : root_pass_rec args.saltmaster_vm_name v = Except.ok (some p) := by
    simp [root_pass_rec, hroot, hpwe]
  have hpe : p.isEmpty = false := by
    cases hb : p.isEmpty
    · rfl
    · exact absurd ((String.isEmpty_iff p).mp hb) hp
  have hg : rootPassTest args.saltmaster_vm_name [v] = Except.ok true := by
    simp [rootPassTest, root_pass_list, hrec, optTruthy, hpe]
  have hrun := until_some_spec (rootPassTest args.saltmaster_vm_name)
    (fun vs => !vs.isEmpty) env.limitAt1
    (fun n => vs_lookup args.saltmaster_vm_name args.saltmaster_vm_domain
      (env.account1 (n + 1)))
    0 env.fuel1 true (fun j hj => absurd hj (by omega))
    (by simp only [Nat.zero_add, h1]; exact hg)
    (by simp [hlim]) (by omega)
  have hloc1 : locate_instance args.saltmaster_vm_name args.saltmaster_vm_domain
      env.account1 env.limitAt1 env.fuel1 =
      some (Except.ok (some ⟨v.fullyQualifiedDomainName, v.primaryIpAddress,
        some p, v.id⟩)) := by
    simp [locate_instance, h0, hrun, hlim, VsRecord.isTruthy, hrec, h1]
  simp [mainRun, hloc1, report_instance, pyStrOpt]

/-- Witness for C8: `vRoot` exists with the single root credential `p@ss`; the
run prints `db1.example.com 5.6.7.8 XXXXX 42` and exits 0 with no provider
call. -/
theorem main_existing_instance_reports_witness :
    mainRun argsNoKey envFound = some ⟨MainOutcome.exited 0, [],
      ["db1.example.com 5.6.7.8 XXXXX 42"]⟩ := by
  have h := main_existing_instance_reports argsNoKey envFound vRoot "p@ss"
    rfl rfl rfl (by decide) rfl (by decide)
  simpa using h

/-- C2 counterexample: a concrete run in which the re-locate after `createObject`
raises `TimeLimitedOperationException` (first conjunct).  The exception is
caught mid-provisioning, yet no cancel call is issued — the call trace holds
only the create call — because `vs` is still `None` when the `except` handler
runs; the process then crashes in `_report_instance`. -/
theorem main_relocate_timeout_no_cancel_cex :
    locate_instance "db1" "example.com" (fun _ => [vNoRoot])
        (fun n => decide (1 ≤ n)) 4 = some (Except.error LocErr.timeLimit) ∧
    mainRun argsCreate envRelocateTimeout =
      some ⟨MainOutcome.crashedReport, [Call.createInstance],
        ["Failed to create and provision instance named: db1. Hosing it. Original exception: reached time limit 5m and did not succeed"]⟩ :=
  ⟨rfl, rfl⟩

/-- C2 (amended): after the create call is submitted, a `TimeExceeded` failure
triggers a cancel only when the Instance Descriptor had already been obtained.
A `TimeExceeded` raised while re-locating the freshly created instance is
caught, but no cancel is issued (the descriptor was never obtained) and the
process crashes while printing the report; a failure of a configuring step
after the descriptor was obtained does issue the single cancel for its id. -/
theorem main_timeout_rollback_requires_descriptor (args : Args) (env : MainEnv)
    (a : String) (key : SLKey)
    (habsent : vs_lookup args.saltmaster_vm_name args.saltmaster_vm_domain
      (env.account1 0) = [])
    (harg : args.ssh_pub_key = some a) (hne : a ≠ "")
    (hkey : (locate_or_add_pubkey env.fs env.slKeys a).fst = KeyOutcome.ok key)
    (hcreate : env.createResult = Except.ok ()) :
    (locate_instance args.saltmaster_vm_name args.saltmaster_vm_domain
        env.account2 env.limitAt2 env.fuel2 = some (Except.error LocErr.timeLimit) →
      ∃ out, mainRun args env =
        some ⟨MainOutcome.crashedReport, [Call.createInstance], out⟩) ∧
    (∀ (inst : InstTuple) (m : String),
      locate_instance args.saltmaster_vm_name args.saltmaster_vm_domain
        env.account2 env.limitAt2 env.fuel2 = some (Except.ok (some inst)) →
      optStrTruthy args.seed_dir = false →
      args.add_sl_cli = false →
      env.sshInstallResult = Except.error m →
      env.cancelResult = Except.ok () →
      ∃ out, mainRun args env = some ⟨MainOutcome.exited 15,
        [Call.createInstance, Call.cancelInstance inst.id], out⟩) := by
  have hloc1 : locate_instance args.saltmaster_vm_name args.saltmaster_vm_domain
      env.account1 env.limitAt1 env.fuel1 = some (Except.ok none) := by
    simp [locate_instance, habsent]
  have hie : a.isEmpty = false := by
    cases hb : a.isEmpty
    · rfl
    · exact absurd ((String.isEmpty_iff a).mp hb) hne
  have htr : optStrTruthy args.ssh_pub_key = true := by
    rw [harg]
    simp [optStrTruthy, hie]
  have hget : args.ssh_pub_key.getD "" = a := by rw [harg]; rfl
  constructor
  · intro hloc2
    refine ⟨["Failed to create and provision instance named: " ++
      args.saltmaster_vm_name ++ ". Hosing it. Original exception: " ++
      LocErr.msg LocErr.timeLimit], ?_⟩
    simp [mainRun, hloc1, htr, hget, hkey, hcreate, hloc2, exceptHandler, finishTry]
  · intro inst m hloc2 hseed hcli hinst hcancel
    refine ⟨["Failed to create and provision instance named: " ++
      args.saltmaster_vm_name ++ ". Hosing it. Original exception: " ++ m,
      report_instance inst args.show_root_pass], ?_⟩
    simp [mainRun, hloc1, htr, hget, hkey, hcreate, hloc2, hseed, hcli,
      ssh_with_retry, hinst, exceptHandler, finishTry, hcancel]

/-- Witness for C2 (amended), first part: in the concrete environment whose
re-locate raises the time-limit exception, the run ends with only the create
call issued. -/
theorem main_timeout_rollback_requires_descriptor_witness :
    ∃ out, mainRun argsCreate envRelocateTimeout =
      some ⟨MainOutcome.crashedReport, [Call.createInstance], out⟩ :=
  (main_timeout_rollback_requires_descriptor argsCreate envRelocateTimeout
    "k1" ⟨"k1", 7⟩ rfl rfl (by decide) rfl rfl).1 rfl
